import Mathlib

/-!
Verification development for the "AI Input Firewall & Response System"
repository.  The core under study is the input-safety evaluation engine
defined in the FastAPI backend part of the single Python source file:

  BLOCKLIST, SQL_INJECTION_REGEX, CACHE_SIZE, CONFIDENCE_THRESHOLD,
  classify_input_with_ollama (wrapped in functools.lru_cache),
  rule_based_checks, generate_ollama_response, is_input_safe.

The embedding below translates those functions into Lean.  The two
external LangChain/Ollama capabilities (classification_chain.invoke and
response_chain.invoke) are modelled as an injected `Backend` whose
methods return `Option String`: `none` models the call raising an
exception, `some s` models it returning the raw string `s`.  Python
exception handling in the adapters is therefore modelled by pattern
matching on the Option; the engine itself is a total function, which
mirrors the fact that no backend failure propagates out of the adapters.

The functools.lru_cache state (an access-ordered bounded map) is made
explicit: a cache is a list of key/value pairs in most-recently-used-first
order; a hit moves the entry to the front, a miss computes, inserts at the
front and truncates to the capacity.  Ghost counters record how many times
the classification capability and the generation capability were invoked
during one `is_input_safe` call; they instrument the exact program points
where `classification_chain.invoke` / `response_chain.invoke` occur.

Scores and the confidence threshold are modelled as rationals.  Every
numeric value that actually arises (0.0, 1.0, 0.8, and the spec's test
values 0.80 and 0.81) is exactly representable as an IEEE double and all
comparisons between them agree with the rational comparisons, so nothing
is lost by this choice.
-/

/-- Python `str.isspace`-style whitespace recognised by `str.strip`
(ASCII part: space, tab, newline, carriage return, vertical tab,
form feed). -/
def isPySpace (c : Char) : Bool :=
  c = ' ' || c = '\t' || c = '\n' || c = '\r' || c = Char.ofNat 11 || c = Char.ofNat 12

/-- Python `str.strip()` (ASCII whitespace). -/
def pyStrip (s : String) : String :=
  String.mk (((s.data.dropWhile isPySpace).reverse.dropWhile isPySpace).reverse)

/-- Python `str.upper()` (ASCII letters). -/
def pyUpper (s : String) : String :=
  String.mk (s.data.map Char.toUpper)

/-- Python `str.lower()` (ASCII letters). -/
def pyLower (s : String) : String :=
  String.mk (s.data.map Char.toLower)

/-- `startsWithChars needle hay`: `needle` is an initial segment of `hay`. -/
def startsWithChars : List Char → List Char → Bool
  | [], _ => true
  | _ :: _, [] => false
  | c :: cs, h :: hs => c = h && startsWithChars cs hs

/-- `occursIn needle hay`: `needle` occurs contiguously in `hay`
(Python's `needle in hay` on strings, at the char-list level). -/
def occursIn (needle : List Char) : List Char → Bool
  | [] => startsWithChars needle []
  | c :: hs => startsWithChars needle (c :: hs) || occursIn needle hs

/-- Source: `BLOCKLIST = {"hack", "exploit", "malicious", "inject", "root"}`.
Set iteration order is irrelevant here because the engine only asks whether
any member occurs, so a list is a faithful model. -/
def BLOCKLIST : List String := ["hack", "exploit", "malicious", "inject", "root"]

/-- Source: `CACHE_SIZE = 1000`. -/
def CACHE_SIZE : Nat := 1000

/-- Source: `CONFIDENCE_THRESHOLD = 0.8`. -/
def CONFIDENCE_THRESHOLD : ℚ := 0.8

/-- Regex word character `\w` (ASCII part): letters, digits, underscore. -/
def isWordChar (c : Char) : Bool :=
  c.isAlphanum || c = '_'

/-- Match a keyword (given in upper case) case-insensitively at the head of
the char list, returning the rest on success.  Models a literal-word part
of `SQL_INJECTION_REGEX` under `re.IGNORECASE`. -/
def matchToken : List Char → List Char → Option (List Char)
  | [], cs => some cs
  | _ :: _, [] => none
  | k :: ks, c :: cs => if c.toUpper = k then matchToken ks cs else none

/-- Match `\s+`: at least one whitespace char, consuming the whole run.
Because every alternative's second word starts with a letter, the greedy
run-consuming reading is equivalent to the regex's backtracking one. -/
def skipSpaces1 : List Char → Option (List Char)
  | [] => none
  | c :: cs => if isPySpace c then some (cs.dropWhile isPySpace) else none

/-- The four alternatives of `SQL_INJECTION_REGEX`, each split at its
`\s+`. -/
def sqlPairs : List (List Char × List Char) :=
  [("DROP".data, "TABLE".data), ("UNION".data, "SELECT".data),
   ("INSERT".data, "INTO".data), ("DELETE".data, "FROM".data)]

/-- The trailing `\b` of the regex: the chars after the match must begin
with a non-word char (or nothing).  The keywords all end in a word char,
so this is exactly the word-boundary condition there. -/
def endBoundary : List Char → Bool
  | [] => true
  | c :: _ => !(isWordChar c)

/-- Does some alternative of the regex match at the head of the char list
(including its trailing word boundary)? -/
def matchSqlAt (cs : List Char) : Bool :=
  sqlPairs.any (fun p =>
    match ((matchToken p.1 cs).bind skipSpaces1).bind (matchToken p.2) with
    | some rest => endBoundary rest
    | none => false)

/-- Scan for a regex match at any position.  `prev` is the char just
before the current position; the leading `\b` holds exactly when `prev`
is absent or a non-word char, because every alternative starts with a
word char. -/
def sqlSearchAux : Option Char → List Char → Bool
  | _, [] => false
  | prev, c :: cs =>
      ((match prev with | none => true | some p => !(isWordChar p)) && matchSqlAt (c :: cs))
        || sqlSearchAux (some c) cs

/-- Source: `SQL_INJECTION_REGEX.search(text)` is truthy, for
`SQL_INJECTION_REGEX = re.compile(r"\b(DROP\s+TABLE|UNION\s+SELECT|INSERT\s+INTO|DELETE\s+FROM)\b", re.IGNORECASE)`. -/
def sqlInjectionSearch (text : String) : Bool :=
  sqlSearchAux none text.data

/-- The `any(word in text_lower for word in BLOCKLIST)` test of
`rule_based_checks`, with `text_lower = text.lower()`. -/
def containsBlockWord (text : String) : Bool :=
  BLOCKLIST.any (fun w => occursIn w.data (pyLower text).data)

/-- Source function `rule_based_checks`. -/
def rule_based_checks (text : String) : Option String :=
  if containsBlockWord text then some "Blocked due to prohibited keyword."
  else if sqlInjectionSearch text then some "SQL injection attempt detected."
  else none

/-- The dict returned by `classify_input_with_ollama`:
`{"label": ..., "score": ...}`. -/
structure ClassDict where
  label : String
  score : ℚ
deriving DecidableEq, Repr

/-- The two external LangChain/Ollama capabilities.  `none` models the
invocation raising an exception; `some s` models it returning raw
string `s`. -/
structure Backend where
  classifyRaw : String → Option String
  generateRaw : String → Option String

/-- The state of the `functools.lru_cache` around
`classify_input_with_ollama`: key/value pairs in most-recently-used-first
order. -/
abbrev Cache := List (String × ClassDict)

/-- Cache lookup by exact string equality of the key (Python dict lookup
on the argument string). -/
def cacheLookup : Cache → String → Option ClassDict
  | [], _ => none
  | (k, v) :: rest, t => if k = t then some v else cacheLookup rest t

/-- Remove the entry with the given key (used to model the lru_cache hit
moving the entry to the most-recently-used position). -/
def removeKey (cache : Cache) (k : String) : Cache :=
  cache.filter (fun p => p.1 != k)

/-- The body of source function `classify_input_with_ollama` (without the
`@lru_cache` wrapper): invoke the classification capability, normalise
`result.strip().upper()`, score 1.0 for the token UNSAFE and 0.0 for
anything else; on exception return label UNSAFE with score 1.0. -/
def classify_input_body (b : Backend) (text : String) : ClassDict :=
  match b.classifyRaw text with
  | some result =>
      let classification := pyUpper (pyStrip result)
      ⟨classification, if classification = "UNSAFE" then 1 else 0⟩
  | none => ⟨"UNSAFE", 1⟩

/-- `functools.lru_cache(maxsize = cap)` applied to `classify_input_body`,
with the cache state passed explicitly.  Returns the result, the new cache
state, and a ghost count (0 or 1) of invocations of the classification
capability.  On a hit the entry moves to the most-recently-used position;
on a miss the new entry is inserted there and the list is truncated to
`cap`, dropping the least-recently-used entry. -/
def classify_cached_cap (cap : Nat) (b : Backend) (cache : Cache) (text : String) :
    ClassDict × Cache × Nat :=
  match cacheLookup cache text with
  | some v => (v, (text, v) :: removeKey cache text, 0)
  | none =>
      let v := classify_input_body b text
      (v, List.take cap ((text, v) :: cache), 1)

/-- Source function `classify_input_with_ollama`, i.e. the body wrapped in
`@lru_cache(maxsize=CACHE_SIZE)`. -/
def classify_input_with_ollama (b : Backend) (cache : Cache) (text : String) :
    ClassDict × Cache × Nat :=
  classify_cached_cap CACHE_SIZE b cache text

/-- Source function `generate_ollama_response`: invoke the generation
capability; `response.strip() or "No response generated."` maps an
empty-after-strip reply to the placeholder; an exception maps to the
fixed error string. -/
def generate_ollama_response (b : Backend) (text : String) : String :=
  match b.generateRaw text with
  | some response =>
      let s := pyStrip response
      if s = "" then "No response generated." else s
  | none => "Error generating response."

/-- The classifier-based blocking condition of `is_input_safe`:
`ai_result["label"] == "UNSAFE" and ai_result["score"] > CONFIDENCE_THRESHOLD`. -/
def classifier_blocks (ai : ClassDict) : Bool :=
  (ai.label == "UNSAFE") && decide (ai.score > CONFIDENCE_THRESHOLD)

/-- The dict returned by `is_input_safe` (the engine's verdict).  `reason`
is `none` when the key is absent (allowed branch) and `score` is `none`
when the source stores Python `None` (rule-blocked branch). -/
structure Verdict where
  status : String
  reason : Option String
  score : Option ℚ
  response : String
deriving DecidableEq, Repr

/-- Result of one `is_input_safe` call: the verdict, the lru_cache state
afterwards, ghost counts of classification/generation capability
invocations, and the classification dict the call used (none when the
rule checks short-circuited). -/
structure EvalOut where
  verdict : Verdict
  cache : Cache
  classCalls : Nat
  genCalls : Nat
  ai : Option ClassDict
deriving DecidableEq, Repr

/-- Source function `is_input_safe`, the evaluation engine. -/
def is_input_safe (b : Backend) (cache : Cache) (text : String) : EvalOut :=
  match rule_based_checks text with
  | some reason =>
      ⟨⟨"blocked", some reason, none, "This prompt is unsafe, can't answer."⟩,
        cache, 0, 0, none⟩
  | none =>
      let p := classify_input_with_ollama b cache text
      if classifier_blocks p.1 then
        ⟨⟨"blocked", some "Ollama classified as unsafe", some p.1.score,
            "This prompt is unsafe, can't answer."⟩,
          p.2.1, p.2.2, 0, some p.1⟩
      else
        ⟨⟨"allowed", none, some p.1.score, generate_ollama_response b text⟩,
          p.2.1, p.2.2, 1, some p.1⟩

/-- A benign concrete backend used by concrete instances below. -/
def okBackend : Backend :=
  ⟨fun _ => some "SAFE", fun _ => some "ok"⟩

/-- Failing backend used in concrete instances. -/
def failBackend : Backend := ⟨fun _ => none, fun _ => none⟩

/-- Backend whose classification capability replies with a string that is
neither SAFE nor UNSAFE after normalisation. -/
def maybeBackend : Backend := ⟨fun _ => some "MAYBE", fun _ => none⟩

/-- Backend whose classification capability replies with whitespace and
lower case around the unsafe token. -/
def noisyReplyBackend : Backend := ⟨fun _ => some "  unsafe\n", fun _ => none⟩

/-- Backend whose generation capability always fails while classification
succeeds benignly. -/
def genFailBackend : Backend := ⟨fun _ => some "SAFE", fun _ => none⟩

/-- Repeatedly run the cached classifier on a list of texts, threading the
cache state (capability results ignored; used to study eviction). -/
def foldInsertsCap (cap : Nat) (b : Backend) (cache : Cache) (ks : List String) : Cache :=
  ks.foldl (fun c k => (classify_cached_cap cap b c k).2.1) cache

/-- 1001 distinct single-char cache keys. -/
def cexKey (i : Nat) : String := String.mk [Char.ofNat i]

/-- The classification dict a benign backend produces. -/
def safeDict : ClassDict := ⟨"SAFE", 0⟩

/-- A cache holding `CACHE_SIZE` entries, keys `cexKey 0 .. cexKey 999`
inserted in that order (so `cexKey 0` is the least-recently-inserted entry
and sits at the least-recently-used end). -/
def fullCache : Cache :=
  ((List.range CACHE_SIZE).map (fun i => (cexKey i, safeDict))).reverse

/-- `fullCache` after a cache HIT on the oldest key `cexKey 0`. -/
def afterHit : Cache := (classify_input_with_ollama okBackend fullCache (cexKey 0)).2.1

/-- `afterHit` after inserting a fresh 1001st key, which forces an
eviction. -/
def afterOverflow : Cache :=
  (classify_input_with_ollama okBackend afterHit (cexKey 1000)).2.1

/-! ## Unfolding helper lemmas -/

lemma is_input_safe_of_rule (b : Backend) (cache : Cache) (text : String) (r : String)
    (h : rule_based_checks text = some r) :
    is_input_safe b cache text =
      ⟨⟨"blocked", some r, none, "This prompt is unsafe, can't answer."⟩,
        cache, 0, 0, none⟩ := by
  unfold is_input_safe
  rw [h]

lemma is_input_safe_of_no_rule (b : Backend) (cache : Cache) (text : String)
    (h : rule_based_checks text = none) :
    is_input_safe b cache text =
      (if classifier_blocks (classify_input_with_ollama b cache text).1 then
        ⟨⟨"blocked", some "Ollama classified as unsafe",
            some (classify_input_with_ollama b cache text).1.score,
            "This prompt is unsafe, can't answer."⟩,
          (classify_input_with_ollama b cache text).2.1,
          (classify_input_with_ollama b cache text).2.2, 0,
          some (classify_input_with_ollama b cache text).1⟩
      else
        ⟨⟨"allowed", none, some (classify_input_with_ollama b cache text).1.score,
            generate_ollama_response b text⟩,
          (classify_input_with_ollama b cache text).2.1,
          (classify_input_with_ollama b cache text).2.2, 1,
          some (classify_input_with_ollama b cache text).1⟩) := by
  unfold is_input_safe
  rw [h]

lemma classify_cached_cap_hit (cap : Nat) (b : Backend) (cache : Cache) (text : String)
    (v : ClassDict) (h : cacheLookup cache text = some v) :
    classify_cached_cap cap b cache text = (v, (text, v) :: removeKey cache text, 0) := by
  unfold classify_cached_cap
  rw [h]

lemma classify_cached_cap_miss (cap : Nat) (b : Backend) (cache : Cache) (text : String)
    (h : cacheLookup cache text = none) :
    classify_cached_cap cap b cache text =
      (classify_input_body b text,
        List.take cap ((text, classify_input_body b text) :: cache), 1) := by
  unfold classify_cached_cap
  rw [h]

lemma classify_input_body_of_fail (b : Backend) (text : String)
    (h : b.classifyRaw text = none) :
    classify_input_body b text = ⟨"UNSAFE", 1⟩ := by
  unfold classify_input_body
  rw [h]

lemma rule_based_checks_of_block (text : String) (h : containsBlockWord text = true) :
    rule_based_checks text = some "Blocked due to prohibited keyword." := by
  unfold rule_based_checks
  rw [h]
  rfl

lemma rule_based_checks_of_sql (text : String) (h1 : containsBlockWord text = false)
    (h2 : sqlInjectionSearch text = true) :
    rule_based_checks text = some "SQL injection attempt detected." := by
  unfold rule_based_checks
  rw [h1, h2]
  rfl

/-! ## Claim theorems -/

/-- C1: for every input text on which the classifier is actually invoked
(no rule match, cache miss), if the external classification capability
fails, the classifier adapter returns label UNSAFE with confidence 1.0 and
`is_input_safe` returns a BLOCKED verdict with confidence 1.0.  The
failure is never propagated: the engine is a total function returning a
well-formed verdict. -/
theorem spec_C1_fail_closed (b : Backend) (cache : Cache) (text : String)
    (hfail : b.classifyRaw text = none)
    (hrule : rule_based_checks text = none)
    (hmiss : cacheLookup cache text = none) :
    classify_input_body b text = ⟨"UNSAFE", 1⟩ ∧
    (is_input_safe b cache text).verdict =
      ⟨"blocked", some "Ollama classified as unsafe", some 1,
        "This prompt is unsafe, can't answer."⟩ := by
  have hbody := classify_input_body_of_fail b text hfail
  refine ⟨hbody, ?_⟩
  rw [is_input_safe_of_no_rule b cache text hrule]
  unfold classify_input_with_ollama
  rw [classify_cached_cap_miss CACHE_SIZE b cache text hmiss, hbody]
  have hcb : classifier_blocks (⟨"UNSAFE", 1⟩ : ClassDict) = true := by
    simp only [classifier_blocks, CONFIDENCE_THRESHOLD, Bool.and_eq_true, beq_self_eq_true,
      decide_eq_true_eq, true_and]
    norm_num
  simp [hcb]

/-- C1 witness: a concrete run with a failing classification capability. -/
theorem spec_C1_fail_closed_w :
    failBackend.classifyRaw "hello" = none ∧
    rule_based_checks "hello" = none ∧
    cacheLookup [] "hello" = none ∧
    (is_input_safe failBackend [] "hello").verdict =
      ⟨"blocked", some "Ollama classified as unsafe", some 1,
        "This prompt is unsafe, can't answer."⟩ :=
  ⟨rfl, by decide, rfl,
    (spec_C1_fail_closed failBackend [] "hello" rfl (by decide) rfl).2⟩

/-- C2: for every text whose lower-cased form contains a blocklisted term,
`is_input_safe` returns BLOCKED with the fixed keyword reason, the score
field is Python None (confidence absent), the classification capability is
never invoked (ghost count 0) and the cache is unchanged — regardless of
the backend and of the cache state. -/
theorem spec_C2_blocklist_short_circuit (b : Backend) (cache : Cache) (text : String)
    (h : ∃ w ∈ BLOCKLIST, occursIn w.data (pyLower text).data = true) :
    is_input_safe b cache text =
      ⟨⟨"blocked", some "Blocked due to prohibited keyword.", none,
          "This prompt is unsafe, can't answer."⟩, cache, 0, 0, none⟩ := by
  have hb : containsBlockWord text = true := by
    unfold containsBlockWord
    exact List.any_eq_true.mpr h
  exact is_input_safe_of_rule b cache text _ (rule_based_checks_of_block text hb)

/-- C2 witness: a concrete blocklisted text (upper-case form of "hack"). -/
theorem spec_C2_blocklist_short_circuit_w :
    (∃ w ∈ BLOCKLIST, occursIn w.data (pyLower "Please HACK this").data = true) ∧
    is_input_safe okBackend [] "Please HACK this" =
      ⟨⟨"blocked", some "Blocked due to prohibited keyword.", none,
          "This prompt is unsafe, can't answer."⟩, [], 0, 0, none⟩ :=
  ⟨by decide, spec_C2_blocklist_short_circuit okBackend [] "Please HACK this" (by decide)⟩

/-- C5 counterexample: the claim says any reply other than UNSAFE maps to
label SAFE with confidence 0.0; the code instead stores the normalised
raw string itself as the label, so the raw reply "MAYBE" yields label
"MAYBE", not "SAFE" (confidence 0.0 does hold). -/
theorem spec_C5_cex :
    (classify_input_body maybeBackend "x").label = "MAYBE" ∧
    (classify_input_body maybeBackend "x").label ≠ "SAFE" ∧
    (classify_input_body maybeBackend "x").score = 0 := by
  decide

/-- C5 (amended): the adapter trims and upper-cases the raw reply; the
token UNSAFE maps to label UNSAFE with confidence 1.0, and any other
string maps to a label equal to the trimmed, upper-cased raw string
itself, with confidence 0.0. -/
theorem spec_C5_normalisation (b : Backend) (text raw : String)
    (h : b.classifyRaw text = some raw) :
    (classify_input_body b text).label = pyUpper (pyStrip raw) ∧
    (pyUpper (pyStrip raw) = "UNSAFE" → classify_input_body b text = ⟨"UNSAFE", 1⟩) ∧
    (pyUpper (pyStrip raw) ≠ "UNSAFE" →
      classify_input_body b text = ⟨pyUpper (pyStrip raw), 0⟩) := by
  unfold classify_input_body
  rw [h]
  by_cases hc : pyUpper (pyStrip raw) = "UNSAFE" <;> simp [hc]

/-- C5 witness: trimming and upper-casing turn a noisy reply into the
UNSAFE token with confidence 1.0. -/
theorem spec_C5_normalisation_w :
    noisyReplyBackend.classifyRaw "q" = some "  unsafe\n" ∧
    pyUpper (pyStrip "  unsafe\n") = "UNSAFE" ∧
    classify_input_body noisyReplyBackend "q" = ⟨"UNSAFE", 1⟩ :=
  ⟨rfl, by decide,
    (spec_C5_normalisation noisyReplyBackend "q" "  unsafe\n" rfl).2.1 (by decide)⟩

/-- C9 counterexample: the claim states that every text matching the
SQL-injection pattern is blocked with the injection reason; but the
blocklist check runs first, so a text that both matches the pattern and
contains a blocklisted word ("inject") gets the keyword reason instead. -/
theorem spec_C9_cex :
    sqlInjectionSearch "inject DROP TABLE users" = true ∧
    (is_input_safe okBackend [] "inject DROP TABLE users").verdict.reason =
      some "Blocked due to prohibited keyword." ∧
    "Blocked due to prohibited keyword." ≠ "SQL injection attempt detected." := by
  decide

/-- C9 (amended): for all text matching the SQL-injection pattern and not
containing any blocklisted term, `is_input_safe` returns BLOCKED with the
distinct fixed injection reason (and the classifier is not consulted). -/
theorem spec_C9_sql_block (b : Backend) (cache : Cache) (text : String)
    (hsql : sqlInjectionSearch text = true)
    (hbl : containsBlockWord text = false) :
    is_input_safe b cache text =
      ⟨⟨"blocked", some "SQL injection attempt detected.", none,
          "This prompt is unsafe, can't answer."⟩, cache, 0, 0, none⟩ :=
  is_input_safe_of_rule b cache text _ (rule_based_checks_of_sql text hbl hsql)

/-- C9 witness: the spec's own example input. -/
theorem spec_C9_sql_block_w :
    sqlInjectionSearch "'; DROP TABLE users; --" = true ∧
    containsBlockWord "'; DROP TABLE users; --" = false ∧
    is_input_safe okBackend [] "'; DROP TABLE users; --" =
      ⟨⟨"blocked", some "SQL injection attempt detected.", none,
          "This prompt is unsafe, can't answer."⟩, [], 0, 0, none⟩ :=
  ⟨by decide, by decide,
    spec_C9_sql_block okBackend [] "'; DROP TABLE users; --" (by decide) (by decide)⟩

/-- C10: for every backend outcome the adapter's score is exactly 0 or 1;
it is 1 exactly when the stored label is UNSAFE, and exactly when the call
failed or the trimmed upper-cased raw reply is the UNSAFE token; and the
decision-step condition (label UNSAFE and score above the 0.8 threshold)
holds of an adapter result exactly when its label is UNSAFE. -/
theorem spec_C10_score_dichotomy (b : Backend) (text : String) :
    ((classify_input_body b text).score = 0 ∨ (classify_input_body b text).score = 1) ∧
    ((classify_input_body b text).score = 1 ↔
      (classify_input_body b text).label = "UNSAFE") ∧
    ((classify_input_body b text).score = 1 ↔
      (b.classifyRaw text = none ∨
        ∃ raw, b.classifyRaw text = some raw ∧ pyUpper (pyStrip raw) = "UNSAFE")) ∧
    (classifier_blocks (classify_input_body b text) = true ↔
      (classify_input_body b text).label = "UNSAFE") := by
  unfold classify_input_body
  cases hb : b.classifyRaw text with
  | none =>
      refine ⟨Or.inr rfl, by simp, by simp, ?_⟩
      simp [classifier_blocks, CONFIDENCE_THRESHOLD]
      norm_num
  | some raw =>
      by_cases hc : pyUpper (pyStrip raw) = "UNSAFE" <;>
        simp [hc, classifier_blocks, CONFIDENCE_THRESHOLD]
      norm_num

lemma classifier_blocks_iff (r : ClassDict) :
    classifier_blocks r = true ↔ (r.label = "UNSAFE" ∧ r.score > CONFIDENCE_THRESHOLD) := by
  simp [classifier_blocks]

/-- C3: with no rule match and the classification result injected through
the cache, the verdict is BLOCKED exactly when the label is UNSAFE and the
confidence is strictly above the 0.8 threshold; in particular confidence
0.81 blocks and confidence 0.80 (exactly the threshold) is allowed. -/
theorem spec_C3_strict_threshold :
    (∀ (b : Backend) (cache : Cache) (text : String) (r : ClassDict),
      rule_based_checks text = none → cacheLookup cache text = some r →
      ((is_input_safe b cache text).verdict.status = "blocked" ↔
        (r.label = "UNSAFE" ∧ r.score > CONFIDENCE_THRESHOLD))) ∧
    (is_input_safe okBackend [("q", ⟨"UNSAFE", 0.81⟩)] "q").verdict.status = "blocked" ∧
    (is_input_safe okBackend [("q", ⟨"UNSAFE", 0.80⟩)] "q").verdict.status = "allowed" := by
  have main : ∀ (b : Backend) (cache : Cache) (text : String) (r : ClassDict),
      rule_based_checks text = none → cacheLookup cache text = some r →
      ((is_input_safe b cache text).verdict.status = "blocked" ↔
        (r.label = "UNSAFE" ∧ r.score > CONFIDENCE_THRESHOLD)) := by
    intro b cache text r hrule hhit
    rw [is_input_safe_of_no_rule b cache text hrule]
    unfold classify_input_with_ollama
    rw [classify_cached_cap_hit CACHE_SIZE b cache text r hhit]
    rw [← classifier_blocks_iff r]
    by_cases hcb : classifier_blocks r = true
    · simp [hcb]
    · simp [hcb]
  refine ⟨main, ?_, ?_⟩
  · rw [main okBackend [("q", ⟨"UNSAFE", 0.81⟩)] "q" ⟨"UNSAFE", 0.81⟩ (by decide) rfl]
    norm_num [CONFIDENCE_THRESHOLD]
  · rw [is_input_safe_of_no_rule okBackend [("q", ⟨"UNSAFE", 0.80⟩)] "q" (by decide)]
    unfold classify_input_with_ollama
    rw [classify_cached_cap_hit CACHE_SIZE okBackend [("q", ⟨"UNSAFE", 0.80⟩)] "q"
      ⟨"UNSAFE", 0.80⟩ rfl]
    have hcb : ¬(classifier_blocks ⟨"UNSAFE", 0.80⟩ = true) := by
      rw [classifier_blocks_iff]
      norm_num [CONFIDENCE_THRESHOLD]
    rw [if_neg hcb]

/-- C3 witness: instantiation of the general part at a concrete cached
classification. -/
theorem spec_C3_strict_threshold_w :
    rule_based_checks "q" = none ∧
    cacheLookup [("q", ⟨"UNSAFE", 1⟩)] "q" = some ⟨"UNSAFE", 1⟩ ∧
    ((is_input_safe okBackend [("q", ⟨"UNSAFE", 1⟩)] "q").verdict.status = "blocked" ↔
      ((ClassDict.mk "UNSAFE" 1).label = "UNSAFE" ∧
        (ClassDict.mk "UNSAFE" 1).score > CONFIDENCE_THRESHOLD)) :=
  ⟨by decide, rfl,
    spec_C3_strict_threshold.1 okBackend [("q", ⟨"UNSAFE", 1⟩)] "q" ⟨"UNSAFE", 1⟩
      (by decide) rfl⟩

lemma blocked_ne_allowed : ("blocked" : String) ≠ "allowed" := by decide

lemma allowed_ne_blocked : ("allowed" : String) ≠ "blocked" := by decide

lemma rule_reason_nonempty (text : String) (r : String)
    (h : rule_based_checks text = some r) : r ≠ "" := by
  unfold rule_based_checks at h
  split_ifs at h
  · injection h with h
    subst h
    decide
  · injection h with h
    subst h
    decide

/-- C6: every verdict satisfies the round-trip invariants: a BLOCKED
verdict carries the fixed refusal reply, a present non-empty reason, and
the generation capability was never invoked; an ALLOWED verdict carries no
reason and its reply is the one produced by the response generator
adapter. -/
theorem spec_C6_verdict_invariants (b : Backend) (cache : Cache) (text : String) :
    ((is_input_safe b cache text).verdict.status = "blocked" →
      (is_input_safe b cache text).verdict.response = "This prompt is unsafe, can't answer." ∧
      (∃ r, (is_input_safe b cache text).verdict.reason = some r ∧ r ≠ "") ∧
      (is_input_safe b cache text).genCalls = 0) ∧
    ((is_input_safe b cache text).verdict.status = "allowed" →
      (is_input_safe b cache text).verdict.reason = none ∧
      (is_input_safe b cache text).verdict.response = generate_ollama_response b text ∧
      (is_input_safe b cache text).genCalls = 1) := by
  cases hrule : rule_based_checks text with
  | some r =>
      rw [is_input_safe_of_rule b cache text r hrule]
      refine ⟨fun _ => ?_, fun hst => ?_⟩
      · exact ⟨rfl, ⟨r, rfl, rule_reason_nonempty text r hrule⟩, rfl⟩
      · exact absurd hst blocked_ne_allowed
  | none =>
      rw [is_input_safe_of_no_rule b cache text hrule]
      by_cases hcb : classifier_blocks (classify_input_with_ollama b cache text).1 = true
      · rw [if_pos hcb]
        refine ⟨fun _ => ?_, fun hst => ?_⟩
        · exact ⟨rfl, ⟨"Ollama classified as unsafe", rfl, by decide⟩, rfl⟩
        · exact absurd hst blocked_ne_allowed
      · rw [if_neg hcb]
        refine ⟨fun hst => ?_, fun _ => ?_⟩
        · exact absurd hst allowed_ne_blocked
        · exact ⟨rfl, rfl, rfl⟩

/-- C6 witness: the blocked side at a concrete blocklisted input. -/
theorem spec_C6_verdict_invariants_w :
    (is_input_safe okBackend [] "hack").verdict.status = "blocked" ∧
    (is_input_safe okBackend [] "hack").verdict.response =
      "This prompt is unsafe, can't answer." ∧
    (∃ r, (is_input_safe okBackend [] "hack").verdict.reason = some r ∧ r ≠ "") ∧
    (is_input_safe okBackend [] "hack").genCalls = 0 :=
  ⟨by decide,
    ((spec_C6_verdict_invariants okBackend [] "hack").1 (by decide)).1,
    ((spec_C6_verdict_invariants okBackend [] "hack").1 (by decide)).2.1,
    ((spec_C6_verdict_invariants okBackend [] "hack").1 (by decide)).2.2⟩

lemma classify_input_body_congr (b b' : Backend) (text : String)
    (h : b'.classifyRaw = b.classifyRaw) :
    classify_input_body b' text = classify_input_body b text := by
  unfold classify_input_body
  rw [h]

lemma classify_cached_cap_congr (cap : Nat) (b b' : Backend) (cache : Cache) (text : String)
    (h : b'.classifyRaw = b.classifyRaw) :
    classify_cached_cap cap b' cache text = classify_cached_cap cap b cache text := by
  cases hl : cacheLookup cache text with
  | some v =>
      rw [classify_cached_cap_hit cap b' cache text v hl,
        classify_cached_cap_hit cap b cache text v hl]
  | none =>
      rw [classify_cached_cap_miss cap b' cache text hl,
        classify_cached_cap_miss cap b cache text hl,
        classify_input_body_congr b b' text h]

lemma allowed_response (b : Backend) (cache : Cache) (text : String)
    (h : (is_input_safe b cache text).verdict.status = "allowed") :
    (is_input_safe b cache text).verdict.response = generate_ollama_response b text := by
  cases hrule : rule_based_checks text with
  | some r =>
      rw [is_input_safe_of_rule b cache text r hrule] at h
      exact absurd h blocked_ne_allowed
  | none =>
      rw [is_input_safe_of_no_rule b cache text hrule] at h ⊢
      by_cases hcb : classifier_blocks (classify_input_with_ollama b cache text).1 = true
      · rw [if_pos hcb] at h
        exact absurd h blocked_ne_allowed
      · rw [if_neg hcb]

/-- C7: once the decision is ALLOWED, a failing generation capability
yields the fixed error-string reply (and an empty or whitespace-only
reply yields the fixed placeholder), while the status never depends on
the generation capability at all: two backends with the same
classification capability produce verdicts with the same status. -/
theorem spec_C7_generator_fail_allowed (b : Backend) (cache : Cache) (text : String) :
    ((is_input_safe b cache text).verdict.status = "allowed" →
      (b.generateRaw text = none →
        (is_input_safe b cache text).verdict.response = "Error generating response.") ∧
      (∀ raw, b.generateRaw text = some raw → pyStrip raw = "" →
        (is_input_safe b cache text).verdict.response = "No response generated.")) ∧
    (∀ b' : Backend, b'.classifyRaw = b.classifyRaw →
      (is_input_safe b' cache text).verdict.status =
        (is_input_safe b cache text).verdict.status) := by
  constructor
  · intro hst
    constructor
    · intro hgen
      rw [allowed_response b cache text hst]
      unfold generate_ollama_response
      rw [hgen]
    · intro raw hgen hstrip
      rw [allowed_response b cache text hst]
      unfold generate_ollama_response
      rw [hgen]
      simp [hstrip]
  · intro b' hb'
    cases hrule : rule_based_checks text with
    | some r =>
        rw [is_input_safe_of_rule b cache text r hrule,
          is_input_safe_of_rule b' cache text r hrule]
    | none =>
        rw [is_input_safe_of_no_rule b cache text hrule,
          is_input_safe_of_no_rule b' cache text hrule]
        unfold classify_input_with_ollama
        rw [classify_cached_cap_congr CACHE_SIZE b b' cache text hb']
        by_cases hcb : classifier_blocks (classify_cached_cap CACHE_SIZE b cache text).1 = true
        · rw [if_pos hcb, if_pos hcb]
        · rw [if_neg hcb, if_neg hcb]

/-- C7 witness: a concrete ALLOWED verdict whose generation capability
fails, with the error-string reply. -/
theorem spec_C7_generator_fail_allowed_w :
    (is_input_safe genFailBackend [] "hello").verdict.status = "allowed" ∧
    genFailBackend.generateRaw "hello" = none ∧
    (is_input_safe genFailBackend [] "hello").verdict.response =
      "Error generating response." := by
  have hst : (is_input_safe genFailBackend [] "hello").verdict.status = "allowed" := by
    rw [is_input_safe_of_no_rule genFailBackend [] "hello" (by decide)]
    unfold classify_input_with_ollama
    rw [classify_cached_cap_miss CACHE_SIZE genFailBackend [] "hello" rfl]
    have hbody : classify_input_body genFailBackend "hello" = ⟨"SAFE", 0⟩ := rfl
    rw [hbody]
    have hcb : ¬(classifier_blocks ⟨"SAFE", 0⟩ = true) := by decide
    rw [if_neg hcb]
  exact ⟨hst, rfl,
    ((spec_C7_generator_fail_allowed genFailBackend [] "hello").1 hst).1 rfl⟩

lemma cacheLookup_cons_self (k : String) (v : ClassDict) (rest : Cache) :
    cacheLookup ((k, v) :: rest) k = some v := by
  simp [cacheLookup]

lemma cacheLookup_cons_ne (k t : String) (v : ClassDict) (rest : Cache) (h : k ≠ t) :
    cacheLookup ((k, v) :: rest) t = cacheLookup rest t := by
  simp [cacheLookup, h]

lemma cacheLookup_take_none (n : Nat) (cache : Cache) (k : String)
    (h : cacheLookup cache k = none) :
    cacheLookup (List.take n cache) k = none := by
  induction cache generalizing n with
  | nil => simp [cacheLookup]
  | cons p rest ih =>
      obtain ⟨pk, pv⟩ := p
      cases n with
      | zero => simp [cacheLookup]
      | succ m =>
          rw [List.take_succ_cons]
          by_cases hk : pk = k
          · rw [cacheLookup, if_pos hk] at h
            exact Option.noConfusion h
          · rw [cacheLookup_cons_ne pk k pv rest hk] at h
            rw [cacheLookup_cons_ne pk k pv (List.take m rest) hk]
            exact ih m h

lemma cacheLookup_removeKey_none (cache : Cache) (k t : String)
    (h : cacheLookup cache t = none) :
    cacheLookup (removeKey cache k) t = none := by
  induction cache with
  | nil => simp [removeKey, cacheLookup]
  | cons p rest ih =>
      obtain ⟨pk, pv⟩ := p
      by_cases hk : pk = t
      · rw [cacheLookup, if_pos hk] at h
        exact Option.noConfusion h
      · rw [cacheLookup_cons_ne pk t pv rest hk] at h
        unfold removeKey at ih ⊢
        rw [List.filter_cons]
        by_cases hkeep : (pk != k) = true
        · rw [if_pos hkeep]
          rw [cacheLookup_cons_ne pk t pv _ hk]
          exact ih h
        · rw [if_neg hkeep]
          exact ih h

lemma classify_cached_cap_lookup_self (cap : Nat) (b : Backend) (cache : Cache)
    (text : String) (hcap : 0 < cap) :
    cacheLookup (classify_cached_cap cap b cache text).2.1 text =
      some (classify_cached_cap cap b cache text).1 := by
  cases hl : cacheLookup cache text with
  | some v =>
      rw [classify_cached_cap_hit cap b cache text v hl]
      exact cacheLookup_cons_self text v (removeKey cache text)
  | none =>
      rw [classify_cached_cap_miss cap b cache text hl]
      obtain ⟨m, rfl⟩ : ∃ m, cap = m + 1 := ⟨cap - 1, (Nat.succ_pred_eq_of_pos hcap).symm⟩
      rw [List.take_succ_cons]
      exact cacheLookup_cons_self text (classify_input_body b text) (List.take m cache)

lemma classify_cached_cap_preserves_none (cap : Nat) (b : Backend) (cache : Cache)
    (text t' : String) (hne : t' ≠ text) (h : cacheLookup cache t' = none) :
    cacheLookup (classify_cached_cap cap b cache text).2.1 t' = none := by
  cases hl : cacheLookup cache text with
  | some v =>
      rw [classify_cached_cap_hit cap b cache text v hl]
      rw [cacheLookup_cons_ne text t' v (removeKey cache text) (Ne.symm hne)]
      exact cacheLookup_removeKey_none cache text t' h
  | none =>
      rw [classify_cached_cap_miss cap b cache text hl]
      apply cacheLookup_take_none
      rw [cacheLookup_cons_ne text t' (classify_input_body b text) cache (Ne.symm hne)]
      exact h

lemma is_input_safe_classifier_parts (b : Backend) (cache : Cache) (text : String)
    (hrule : rule_based_checks text = none) :
    (is_input_safe b cache text).ai = some (classify_input_with_ollama b cache text).1 ∧
    (is_input_safe b cache text).cache = (classify_input_with_ollama b cache text).2.1 ∧
    (is_input_safe b cache text).classCalls = (classify_input_with_ollama b cache text).2.2 := by
  rw [is_input_safe_of_no_rule b cache text hrule]
  by_cases hcb : classifier_blocks (classify_input_with_ollama b cache text).1 = true
  · rw [if_pos hcb]
    exact ⟨rfl, rfl, rfl⟩
  · rw [if_neg hcb]
    exact ⟨rfl, rfl, rfl⟩

/-- C8: with no rule match, a second `is_input_safe` call on the identical
text is a cache hit: it invokes the classification capability zero times
(the first call invokes it at most once), and it uses the identical
classification result the first call stored.  The cache layer compares
keys by exact string equality, with no trimming or case-folding: any
other text — even one equal up to trim or case — that is not already
cached still costs one capability invocation after the first call. -/
theorem spec_C8_cache_identical_text (b : Backend) (cache : Cache) (text : String)
    (hrule : rule_based_checks text = none) :
    (is_input_safe b (is_input_safe b cache text).cache text).classCalls = 0 ∧
    (is_input_safe b cache text).classCalls ≤ 1 ∧
    (is_input_safe b (is_input_safe b cache text).cache text).ai =
      (is_input_safe b cache text).ai ∧
    (is_input_safe b cache text).ai.isSome = true ∧
    (∀ t', t' ≠ text → cacheLookup cache t' = none → rule_based_checks t' = none →
      (is_input_safe b (is_input_safe b cache text).cache t').classCalls = 1) := by
  obtain ⟨hai1, hcache1, hcalls1⟩ := is_input_safe_classifier_parts b cache text hrule
  have hcap : 0 < CACHE_SIZE := by decide
  have hmem : cacheLookup (is_input_safe b cache text).cache text =
      some (classify_input_with_ollama b cache text).1 := by
    rw [hcache1]
    exact classify_cached_cap_lookup_self CACHE_SIZE b cache text hcap
  obtain ⟨hai2, hcache2, hcalls2⟩ :=
    is_input_safe_classifier_parts b (is_input_safe b cache text).cache text hrule
  have hhit := classify_cached_cap_hit CACHE_SIZE b (is_input_safe b cache text).cache text
    (classify_input_with_ollama b cache text).1 hmem
  refine ⟨?_, ?_, ?_, ?_, ?_⟩
  · rw [hcalls2]
    unfold classify_input_with_ollama
    rw [hhit]
  · rw [hcalls1]
    unfold classify_input_with_ollama
    cases hl : cacheLookup cache text with
    | some v =>
        rw [classify_cached_cap_hit CACHE_SIZE b cache text v hl]
        exact Nat.zero_le 1
    | none =>
        rw [classify_cached_cap_miss CACHE_SIZE b cache text hl]
  · rw [hai2, hai1]
    unfold classify_input_with_ollama
    rw [hhit]
    rfl
  · rw [hai1]
    rfl
  · intro t' hne hnone hrule'
    have hmiss : cacheLookup (is_input_safe b cache text).cache t' = none := by
      rw [hcache1]
      exact classify_cached_cap_preserves_none CACHE_SIZE b cache text t' hne hnone
    obtain ⟨_, _, hcalls'⟩ :=
      is_input_safe_classifier_parts b (is_input_safe b cache text).cache t' hrule'
    rw [hcalls']
    unfold classify_input_with_ollama
    rw [classify_cached_cap_miss CACHE_SIZE b (is_input_safe b cache text).cache t' hmiss]

/-- C8 witness: concrete run, including a case-variant key ("Hello") that
stays a miss after "hello" is cached. -/
theorem spec_C8_cache_identical_text_w :
    rule_based_checks "hello" = none ∧
    (is_input_safe okBackend (is_input_safe okBackend [] "hello").cache "hello").classCalls
      = 0 ∧
    (is_input_safe okBackend (is_input_safe okBackend [] "hello").cache "Hello").classCalls
      = 1 :=
  ⟨by decide,
    (spec_C8_cache_identical_text okBackend [] "hello" (by decide)).1,
    (spec_C8_cache_identical_text okBackend [] "hello" (by decide)).2.2.2.2 "Hello"
      (by decide) rfl (by decide)⟩

lemma take_append_take (n : Nat) (l m : Cache) :
    List.take n (l ++ List.take n m) = List.take n (l ++ m) := by
  rw [List.take_append_eq_append_take, List.take_append_eq_append_take, List.take_take,
    Nat.min_eq_left (Nat.sub_le n l.length)]

lemma cacheLookup_eq_none_iff (cache : Cache) (k : String) :
    cacheLookup cache k = none ↔ k ∉ cache.map Prod.fst := by
  induction cache with
  | nil => simp [cacheLookup]
  | cons p rest ih =>
      obtain ⟨pk, pv⟩ := p
      by_cases h : pk = k
      · subst h
        simp [cacheLookup]
      · rw [cacheLookup_cons_ne pk k pv rest h, ih]
        have h' : ¬(k = pk) := fun e => h e.symm
        simp [h']

lemma foldInsertsCap_fresh (cap : Nat) (b : Backend) :
    ∀ (ks : List String) (cache : Cache), ks.Nodup →
      (∀ k ∈ ks, cacheLookup cache k = none) → cache.length ≤ cap →
      foldInsertsCap cap b cache ks =
        List.take cap ((ks.map (fun k => (k, classify_input_body b k))).reverse ++ cache) := by
  intro ks
  induction ks with
  | nil =>
      intro cache _ _ hlen
      simp only [foldInsertsCap, List.foldl_nil, List.map_nil, List.reverse_nil,
        List.nil_append]
      exact (List.take_of_length_le hlen).symm
  | cons k rest ih =>
      intro cache hnd hfresh hlen
      have hk : cacheLookup cache k = none := hfresh k (List.mem_cons_self k rest)
      have hstep : foldInsertsCap cap b cache (k :: rest) =
          foldInsertsCap cap b
            (List.take cap ((k, classify_input_body b k) :: cache)) rest := by
        unfold foldInsertsCap
        rw [List.foldl_cons, classify_cached_cap_miss cap b cache k hk]
      rw [hstep]
      have hnd' : rest.Nodup := (List.nodup_cons.mp hnd).2
      have hknotin : k ∉ rest := (List.nodup_cons.mp hnd).1
      have hfresh' : ∀ k' ∈ rest,
          cacheLookup (List.take cap ((k, classify_input_body b k) :: cache)) k' = none := by
        intro k' hk'
        apply cacheLookup_take_none
        rw [cacheLookup_cons_ne k k' (classify_input_body b k) cache
          (fun e => hknotin (by rw [e]; exact hk'))]
        exact hfresh k' (List.mem_cons_of_mem k hk')
      have hlen' : (List.take cap ((k, classify_input_body b k) :: cache)).length ≤ cap := by
        simp [List.length_take]
      rw [ih (List.take cap ((k, classify_input_body b k) :: cache)) hnd' hfresh' hlen']
      rw [take_append_take]
      congr 1
      rw [List.map_cons, List.reverse_cons, List.append_assoc, List.singleton_append]

/-- C4 (amended): the cache wrapped around the classifier is a bounded
least-recently-USED cache (capacity `cap`, instantiated at
`CACHE_SIZE = 1000` in `classify_input_with_ollama`): inserting `cap + 1`
distinct fresh keys with no intervening hits evicts exactly the
first-inserted key, so a subsequent lookup of that key misses. -/
theorem spec_C4_lru_eviction :
    CACHE_SIZE = 1000 ∧
    ∀ (cap : Nat) (b : Backend) (k0 : String) (ks : List String),
      (k0 :: ks).Nodup → ks.length = cap →
      cacheLookup (foldInsertsCap cap b [] (k0 :: ks)) k0 = none := by
  refine ⟨rfl, ?_⟩
  intro cap b k0 ks hnd hlen
  rw [foldInsertsCap_fresh cap b (k0 :: ks) [] hnd (fun k _ => rfl) (by simp)]
  rw [List.append_nil, List.map_cons, List.reverse_cons]
  have hlenrev : ((ks.map (fun k => (k, classify_input_body b k))).reverse).length = cap := by
    simp [hlen]
  rw [List.take_left' hlenrev]
  rw [cacheLookup_eq_none_iff]
  simp only [List.map_reverse, List.mem_reverse, List.map_map, List.mem_map,
    Function.comp_apply, not_exists, not_and]
  intro i hi e
  exact (List.nodup_cons.mp hnd).1 (by rw [← e]; exact hi)

/-- C4 amended-claim witness: capacity 2, three distinct keys, the first
key is evicted. -/
theorem spec_C4_lru_eviction_w :
    (["a", "b", "c"] : List String).Nodup ∧
    (["b", "c"] : List String).length = 2 ∧
    cacheLookup (foldInsertsCap 2 okBackend [] ["a", "b", "c"]) "a" = none :=
  ⟨by decide, rfl, spec_C4_lru_eviction.2 2 okBackend "a" ["b", "c"] (by decide) rfl⟩

lemma char_ofNat_toNat (n : Nat) (h : n < 55296) : (Char.ofNat n).toNat = n := by
  rw [Char.ofNat, dif_pos (Or.inl h)]
  rfl

lemma cexKeys_nodup : ((List.range CACHE_SIZE).map cexKey).Nodup := by
  refine List.Nodup.map_on ?_ (List.nodup_range CACHE_SIZE)
  intro i hi j hj hij
  have hi' : i < 55296 := Nat.lt_trans (List.mem_range.mp hi) (by norm_num [CACHE_SIZE])
  have hj' : j < 55296 := Nat.lt_trans (List.mem_range.mp hj) (by norm_num [CACHE_SIZE])
  have hchar : Char.ofNat i = Char.ofNat j := by
    have hdata := congrArg String.data hij
    simpa [cexKey] using hdata
  calc i = (Char.ofNat i).toNat := (char_ofNat_toNat i hi').symm
    _ = (Char.ofNat j).toNat := by rw [hchar]
    _ = j := char_ofNat_toNat j hj'

set_option maxRecDepth 100000 in
/-- C4 counterexample: the claimed eviction policy is insertion-order
("evicts the least-recently-inserted entry, not access-order"), but the
code uses `functools.lru_cache`, which is access-ordered.  `fullCache` is
exactly the state reached by inserting the 1000 distinct keys
`cexKey 0 .. cexKey 999` in order into an empty cache (first conjunct).
After a HIT on the least-recently-inserted key `cexKey 0` and then an
insertion that exceeds the capacity, the least-recently-inserted key is
still present and the evicted entry is `cexKey 1` instead — refuting
insertion-order eviction at this concrete input. -/
theorem spec_C4_cex :
    foldInsertsCap CACHE_SIZE okBackend [] ((List.range CACHE_SIZE).map cexKey)
      = fullCache ∧
    cacheLookup afterOverflow (cexKey 0) = some safeDict ∧
    cacheLookup afterOverflow (cexKey 1) = none := by
  refine ⟨?_, ?_, ?_⟩
  · rw [foldInsertsCap_fresh CACHE_SIZE okBackend _ [] cexKeys_nodup (fun k _ => rfl)
      (by simp)]
    rw [List.append_nil, List.map_map]
    rw [List.take_of_length_le (by simp)]
    rfl
  · rfl
  · rfl
